import Mathlib

/-!
# Account Registry Service — verification of `src/app.py`

Shallow embedding of the Flask account-registration service. Python strings
are modelled as `List Char` (so `len` is `List.length`, matching Python's
code-point count), the SQLite `accounts` table as a list of `Account`
records in insertion order, and each HTTP handler as a pure function from
the table (plus the request fields and the storage-supplied values: the
`created_at` timestamp and the password salt) to a response and the
resulting table.
-/

/-- Python strings, modelled as lists of characters. -/
abbrev Str := List Char

/-- A row of the `accounts` table (`init_db`, src/app.py lines 48-60):
`id INTEGER PRIMARY KEY AUTOINCREMENT`, `username TEXT NOT NULL UNIQUE`,
`email TEXT NOT NULL UNIQUE`, `password_hash TEXT NOT NULL`,
`created_at TIMESTAMP DEFAULT CURRENT_TIMESTAMP` (modelled as `Nat`). -/
structure Account where
  id : Nat
  username : Str
  email : Str
  password_hash : Str
  created_at : Nat
deriving DecidableEq, Repr

/-- The `accounts` table, in storage insertion order. -/
abbrev DB := List Account

/-- Character class `[a-zA-Z0-9_.+-]` of the local part of the email
pattern (src/app.py line 64). `Char.isAlpha`/`Char.isDigit` are exactly
the ASCII ranges `a-zA-Z` / `0-9`. -/
def isLocalChar (c : Char) : Bool :=
  c.isAlpha || c.isDigit || c == '_' || c == '.' || c == '+' || c == '-'

/-- Character class `[a-zA-Z0-9-]` of the domain part. -/
def isDomainChar (c : Char) : Bool :=
  c.isAlpha || c.isDigit || c == '-'

/-- Character class `[a-zA-Z0-9-.]` of the final label (note: it contains
the literal dot). -/
def isFinalChar (c : Char) : Bool :=
  c.isAlpha || c.isDigit || c == '-' || c == '.'

/-- Matching of the regex body `[a-zA-Z0-9_.+-]+@[a-zA-Z0-9-]+\.[a-zA-Z0-9-.]+`
against the whole of `s`. Since `@` belongs to no character class, the
local part must be the maximal run of local characters; since `.` is not a
domain character, the mandatory dot must end the maximal run of domain
characters; the final `+$` forces the remainder to be a nonempty run of
final-label characters. -/
def emailBodyMatch (s : Str) : Bool :=
  let l := s.takeWhile isLocalChar
  let r := s.dropWhile isLocalChar
  (!l.isEmpty) && (r.head? == some '@') &&
  (let rest := r.tail
   let d := rest.takeWhile isDomainChar
   let r2 := rest.dropWhile isDomainChar
   (!d.isEmpty) && (r2.head? == some '.') &&
   (let f := r2.tail
    (!f.isEmpty) && f.all isFinalChar))

/-- In Python's `re`, `$` (without `re.MULTILINE`) matches at the end of
the string or just before a single newline at the end of the string; this
strips that optional trailing newline. -/
def stripTrailingNewline (s : Str) : Str :=
  if s.getLast? = some '\n' then s.dropLast else s

/-- `validate_email` (src/app.py lines 62-65):
`re.match(r'^[a-zA-Z0-9_.+-]+@[a-zA-Z0-9-]+\.[a-zA-Z0-9-.]+$', email) is not None`. -/
def validate_email (email : Str) : Bool :=
  emailBodyMatch (stripTrailingNewline email)

/-- Field message for an invalid username (src/app.py line 98). -/
def usernameMsg : String := "Длина имени пользователя должна быть от 3 до 20 символов"

/-- Field message for an invalid email (src/app.py line 102). -/
def emailMsg : String := "Некорректный формат email"

/-- Field message for an invalid password (src/app.py line 106). -/
def passwordMsg : String := "Пароль должен содержать минимум 6 символов"

/-- The `errors` dict built by `AccountsResource.post` (src/app.py lines
94-106), as an association list in Python dict insertion order:
username first, then email, then password. -/
def validationErrors (username email password : Str) : List (String × String) :=
  (if username.length < 3 ∨ username.length > 20 then [("username", usernameMsg)] else [])
  ++ (if validate_email email = false then [("email", emailMsg)] else [])
  ++ (if password.length < 6 then [("password", passwordMsg)] else [])

/-- The lowercase hex digit of `n % 16`, as produced by werkzeug's digest
hex-encoding (`0`-`9` then `a`-`f`). -/
def hexDigit (n : Nat) : Char :=
  if n % 16 < 10 then Char.ofNat (48 + n % 16) else Char.ofNat (87 + n % 16)

/-- A hex digit different from the given character (`'1'` if it is `'0'`,
else `'0'`). -/
def otherHexDigit (c : Char) : Char :=
  if c = '0' then '1' else '0'

/-- Seed for the stand-in digest: a 64-bit fold over salt and password. -/
def digestSeed (salt p : Str) : Nat :=
  (salt ++ p).foldl (fun h c => (h * 31 + c.toNat) % 18446744073709551616) 5381

/-- `n` pseudo-random hex digits from a 64-bit linear congruential stream. -/
def hexStream (seed : Nat) : Nat → Str
  | 0 => []
  | n + 1 =>
      hexDigit (seed / 65536) ::
        hexStream ((seed * 6364136223846793005 + 1442695040888963407) % 18446744073709551616) n

/-- Modelled from the spec: the hashing primitive (werkzeug's
`generate_password_hash`, an external collaborator per spec section 6, not
part of src/) is a one-way salted hash consumed as
`hash(plaintext) -> hash_string`. The model keeps werkzeug's real output
shape `scrypt:32768:8:1$<salt>$<128 hex digits>` with an explicit `salt`
parameter. The digest is a computable stand-in; its leading digit is
chosen to differ from the plaintext's character at that position, which
realizes, inside a computable model, the contract that a hash string is
never its own preimage. -/
def generate_password_hash (salt p : Str) : Str :=
  ("scrypt:32768:8:1$".toList ++ salt ++ ['$']) ++
    (otherHexDigit (p.getD (18 + salt.length) 'x') :: hexStream (digestSeed salt p) 127)

/-- Result of `cursor.execute('INSERT INTO accounts ...')` on a table with
`UNIQUE` constraints on `username` and on `email` (in that column order, so
SQLite checks the implicit `username` index first): either an
`sqlite3.IntegrityError` message, or the table extended with the new row,
whose `id` is the next `AUTOINCREMENT` value and whose `created_at` is the
storage timestamp `ts`. -/
def sqliteInsert (db : DB) (u e ph : Str) (ts : Nat) : Except Str DB :=
  if db.any (fun a => a.username == u) then
    .error "UNIQUE constraint failed: accounts.username".toList
  else if db.any (fun a => a.email == e) then
    .error "UNIQUE constraint failed: accounts.email".toList
  else
    .ok (db ++ [{ id := db.foldl (fun m a => max m a.id) 0 + 1
                  username := u, email := e, password_hash := ph, created_at := ts }])

/-- A JSON value as rendered in a response body. -/
inductive Json where
  | null
  | num (n : Nat)
  | str (s : Str)
deriving DecidableEq, Repr

/-- Marshalling of one row of `SELECT id, username, email FROM accounts`
through the Swagger `account_model` (src/app.py lines 23-28, applied by
`@api.marshal_list_with(account_model)`): the model's four fields in
declaration order; `created_at` is absent from the row, so flask-restx
emits the field default `None`; `password_hash` is not a field of the
model and is never emitted. -/
def marshalAccountRow (a : Account) : List (String × Json) :=
  [("id", Json.num a.id), ("username", Json.str a.username),
   ("email", Json.str a.email), ("created_at", Json.null)]

/-- Response of `AccountsResource.get`. -/
inductive GetResult where
  | ok (status : Nat) (rows : List (List (String × Json)))
  | err (status : Nat) (msg : String)
deriving DecidableEq, Repr

/-- Generic message of the 500 response (src/app.py line 82). -/
def dbErrorMsg : String := "Ошибка базы данных"

/-- `AccountsResource.get` (src/app.py lines 71-82): runs
`SELECT id, username, email FROM accounts`, marshals each row and returns
it with status 200; if the storage layer raises `sqlite3.Error e`
(modelled by `storageFail = some e`), it aborts with 500 and the fixed
generic message. The handler issues no write, so the table is returned
unchanged on every path. -/
def listAccounts (db : DB) (storageFail : Option String) : GetResult × DB :=
  match storageFail with
  | some _ => (.err 500 dbErrorMsg, db)
  | none => (.ok 200 (db.map marshalAccountRow), db)

/-- Start of every 409 message (src/app.py line 135). -/
def conflictMsgBase : String := "Ошибка уникальности: "

/-- 409 message suffix when `'username' in str(e)` (src/app.py line 137). -/
def usernameConflictMsg : String := "Имя пользователя уже существует"

/-- 409 message suffix when `'email' in str(e)` (src/app.py line 139). -/
def emailConflictMsg : String := "Email уже зарегистрирован"

/-- The 409 message built by the `except sqlite3.IntegrityError as e`
branch (src/app.py lines 134-140) from the exception text `e`. -/
def conflictMessage (e : Str) : String :=
  conflictMsgBase ++
    (if "username".toList <:+: e then usernameConflictMsg
     else if "email".toList <:+: e then emailConflictMsg
     else "")

/-- Response of `AccountsResource.post`: a 400 validation abort carrying
the `errors` dict, a 409 conflict abort, a 500 internal error (an
exception that no `except` clause catches), or a 201 with marshalled rows
(the `return new_account, 201` on line 132). -/
inductive PostResult where
  | validationError (errors : List (String × String))
  | conflict (msg : String)
  | serverError
  | created (rows : List (List (String × Json)))
deriving DecidableEq, Repr

/-- HTTP status of each `PostResult`. -/
def statusOf : PostResult → Nat
  | .validationError _ => 400
  | .conflict _ => 409
  | .serverError => 500
  | .created _ => 201

/-- `AccountsResource.post` (src/app.py lines 89-140). Validates the three
fields, aborting with 400 and the `errors` dict if any rule fails (no
write). Otherwise hashes the password and runs the `INSERT`; on
`sqlite3.IntegrityError` the transaction is rolled back by the connection
context manager and the handler aborts with 409. On success the `INSERT`
is committed by the explicit `conn.commit()`, after which the handler
executes the read-back query `SELECT id, username, email, FROM accounts
WHERE id = ?` — with a trailing comma before `FROM`, an SQL syntax error —
so `cursor.execute` raises `sqlite3.OperationalError`, which the
`except sqlite3.IntegrityError` clause does not catch: the exception
escapes the handler after the commit and the framework answers 500, while
the inserted row remains in storage. The `return new_account, 201` line is
unreachable. -/
def createAccount (db : DB) (username email password salt : Str) (ts : Nat) :
    PostResult × DB :=
  let errors := validationErrors username email password
  if errors = [] then
    let ph := generate_password_hash salt password
    match sqliteInsert db username email ph ts with
    | .error e => (.conflict (conflictMessage e), db)
    | .ok db' => (.serverError, db')
  else
    (.validationError errors, db)

/-- The accepted email shape stated from the claim's words (for comparison
with `validate_email`): a nonempty local part over `[a-zA-Z0-9_.+-]`, an
`@`, a nonempty domain over `[a-zA-Z0-9-]`, a literal dot, then a nonempty
final label (over the pattern's final class `[a-zA-Z0-9-.]`). -/
def EmailShape (s : Str) : Prop :=
  ∃ l d f : Str,
    s = l ++ '@' :: (d ++ '.' :: f) ∧
    l ≠ [] ∧ l.all isLocalChar = true ∧
    d ≠ [] ∧ d.all isDomainChar = true ∧
    f ≠ [] ∧ f.all isFinalChar = true

theorem takeWhile_append_of_all {p : Char → Bool} {l : Str} (hl : l.all p = true)
    {a : Char} (ha : p a = false) (t : Str) :
    (l ++ a :: t).takeWhile p = l ∧ (l ++ a :: t).dropWhile p = a :: t := by
  induction l with
  | nil => simp [List.takeWhile_cons, List.dropWhile_cons, ha]
  | cons x xs ih =>
      simp only [List.all_cons, Bool.and_eq_true] at hl
      have h := ih hl.2
      simp [List.takeWhile_cons, List.dropWhile_cons, hl.1, h.1, h.2]

theorem emailBodyMatch_iff (s : Str) : emailBodyMatch s = true ↔ EmailShape s := by
  constructor
  · intro h
    simp only [emailBodyMatch, Bool.and_eq_true, beq_iff_eq, Bool.not_eq_true',
      List.isEmpty_eq_false] at h
    obtain ⟨⟨h1, h2⟩, ⟨h3, h4⟩, h5, h6⟩ := h
    refine ⟨s.takeWhile isLocalChar,
      (s.dropWhile isLocalChar).tail.takeWhile isDomainChar,
      ((s.dropWhile isLocalChar).tail.dropWhile isDomainChar).tail,
      ?_, h1, ?_, h3, ?_, h5, h6⟩
    · have e1 : s.takeWhile isLocalChar ++ s.dropWhile isLocalChar = s :=
        List.takeWhile_append_dropWhile isLocalChar s
      have e2 : '@' :: (s.dropWhile isLocalChar).tail = s.dropWhile isLocalChar :=
        List.cons_head?_tail h2
      have e3 : (s.dropWhile isLocalChar).tail.takeWhile isDomainChar ++
          (s.dropWhile isLocalChar).tail.dropWhile isDomainChar =
          (s.dropWhile isLocalChar).tail :=
        List.takeWhile_append_dropWhile isDomainChar (s.dropWhile isLocalChar).tail
      have e4 : '.' :: ((s.dropWhile isLocalChar).tail.dropWhile isDomainChar).tail =
          (s.dropWhile isLocalChar).tail.dropWhile isDomainChar :=
        List.cons_head?_tail h4
      conv_lhs => rw [← e1]
      congr 1
      conv_lhs => rw [← e2]
      congr 1
      conv_lhs => rw [← e3]
      congr 1
      exact e4.symm
    · exact List.all_eq_true.2 fun x hx => List.mem_takeWhile_imp hx
    · exact List.all_eq_true.2 fun x hx => List.mem_takeWhile_imp hx
  · rintro ⟨l, d, f, rfl, hl, hla, hd, hda, hf, hfa⟩
    have h1 := takeWhile_append_of_all hla (show isLocalChar '@' = false by decide)
      (d ++ '.' :: f)
    have h2 := takeWhile_append_of_all hda (show isDomainChar '.' = false by decide) f
    simp [emailBodyMatch, h1.1, h1.2, h2.1, h2.2, hl, hd, hf, hfa]

theorem emailShape_getLast {s : Str} (h : EmailShape s) :
    ∃ c, s.getLast? = some c ∧ isFinalChar c = true := by
  obtain ⟨l, d, f, rfl, _, _, _, _, hf, hfa⟩ := h
  refine ⟨f.getLast hf, ?_, List.all_eq_true.1 hfa _ (List.getLast_mem hf)⟩
  rw [show l ++ '@' :: (d ++ '.' :: f) = (l ++ '@' :: d ++ ['.']) ++ f by simp]
  rw [List.getLast?_append_of_ne_nil _ hf, List.getLast?_eq_getLast_of_ne_nil hf]

/-- C6 amended: the email validator accepts a string if and only if it has
the claimed shape (nonempty local part over letters/digits/underscore/
dot/plus/minus, `@`, nonempty domain over letters/digits/hyphen, a literal
dot, nonempty final label) or it is such a string followed by one trailing
newline — the extra newline case is Python's `$` semantics. -/
theorem validate_email_iff_shape_or_trailing_newline (s : Str) :
    validate_email s = true ↔ (EmailShape s ∨ ∃ t, s = t ++ ['\n'] ∧ EmailShape t) := by
  unfold validate_email stripTrailingNewline
  by_cases hl : s.getLast? = some '\n'
  · rw [if_pos hl]
    have hne : s ≠ [] := by intro h; subst h; simp at hl
    have hg : s.getLast hne = '\n' := by
      have h2 := List.getLast?_eq_getLast_of_ne_nil hne
      rw [hl] at h2
      exact (Option.some.inj h2).symm
    have hs : s.dropLast ++ ['\n'] = s := by
      rw [← hg]; exact List.dropLast_append_getLast hne
    rw [emailBodyMatch_iff]
    constructor
    · intro h; exact Or.inr ⟨s.dropLast, hs.symm, h⟩
    · rintro (h | ⟨t, ht, hsh⟩)
      · obtain ⟨c, hc, hfc⟩ := emailShape_getLast h
        rw [hl] at hc
        obtain rfl : '\n' = c := Option.some.inj hc
        exact absurd hfc (by decide)
      · have he : t = s.dropLast := by rw [ht, List.dropLast_concat]
        rw [← he]; exact hsh
  · rw [if_neg hl, emailBodyMatch_iff]
    constructor
    · exact Or.inl
    · rintro (h | ⟨t, rfl, hsh⟩)
      · exact h
      · exact absurd (List.getLast?_concat t) hl

theorem mem_if_list {α : Type} {c : Prop} [Decidable c] {x : α} {l : List α} :
    x ∈ (if c then l else []) ↔ c ∧ x ∈ l := by
  split <;> rename_i h <;> simp [h]

theorem username_mem_validationErrors (u e p : Str) :
    ("username", usernameMsg) ∈ validationErrors u e p ↔ u.length < 3 ∨ u.length > 20 := by
  simp only [validationErrors, List.mem_append, mem_if_list, List.mem_singleton]
  constructor
  · rintro ((⟨hc, _⟩ | ⟨_, h⟩) | ⟨_, h⟩)
    · exact hc
    · exact absurd h (by decide)
    · exact absurd h (by decide)
  · intro hc
    exact Or.inl (Or.inl ⟨hc, trivial⟩)

theorem email_mem_validationErrors (u e p : Str) :
    ("email", emailMsg) ∈ validationErrors u e p ↔ validate_email e = false := by
  simp only [validationErrors, List.mem_append, mem_if_list, List.mem_singleton]
  constructor
  · rintro ((⟨_, h⟩ | ⟨hc, _⟩) | ⟨_, h⟩)
    · exact absurd h (by decide)
    · exact hc
    · exact absurd h (by decide)
  · intro hc
    exact Or.inl (Or.inr ⟨hc, trivial⟩)

theorem password_mem_validationErrors (u e p : Str) :
    ("password", passwordMsg) ∈ validationErrors u e p ↔ p.length < 6 := by
  simp only [validationErrors, List.mem_append, mem_if_list, List.mem_singleton]
  constructor
  · rintro ((⟨_, h⟩ | ⟨_, h⟩) | ⟨hc, _⟩)
    · exact absurd h (by decide)
    · exact absurd h (by decide)
    · exact hc
  · intro hc
    exact Or.inr ⟨hc, trivial⟩

theorem otherHexDigit_ne (c : Char) : otherHexDigit c ≠ c := by
  unfold otherHexDigit
  split
  · rename_i h; rw [h]; decide
  · rename_i h; exact fun hh => h hh.symm

theorem generate_password_hash_ne_nil (salt p : Str) :
    generate_password_hash salt p ≠ [] := by
  unfold generate_password_hash
  simp

theorem generate_password_hash_ne_plaintext (salt p : Str) :
    generate_password_hash salt p ≠ p := by
  intro h
  have hpre : ("scrypt:32768:8:1$".toList ++ salt ++ ['$']).length = 18 + salt.length := by
    have h17 : ("scrypt:32768:8:1$".toList).length = 17 := rfl
    simp [List.length_append, h17]
    omega
  have hget := congrArg (fun l => l.getD (18 + salt.length) 'x') h
  simp only [generate_password_hash] at hget
  rw [List.getD_append_right _ _ _ _ hpre.le] at hget
  rw [hpre, Nat.sub_self, List.getD_cons_zero] at hget
  exact otherHexDigit_ne _ hget

/-- C1: refuted by the code at a concrete valid request — on an empty table,
creating ("ann", "ann@example.com", "secret1") leaves the new record
committed in storage AND answers 500, the partial outcome the claim rules
out (the malformed read-back SELECT raises an uncaught OperationalError
after `conn.commit()`). -/
theorem creation_commits_record_yet_responds_500 :
    createAccount [] "ann".toList "ann@example.com".toList "secret1".toList
      "saltsaltsaltsalt".toList 0
      = (PostResult.serverError,
         [{ id := 1, username := "ann".toList, email := "ann@example.com".toList,
            password_hash :=
              generate_password_hash "saltsaltsaltsalt".toList "secret1".toList,
            created_at := 0 }]) ∧
    statusOf (createAccount [] "ann".toList "ann@example.com".toList "secret1".toList
      "saltsaltsaltsalt".toList 0).1 = 500 :=
  ⟨rfl, rfl⟩

/-- C2: refuted by the code on every valid, conflict-free request — the
handler always answers 500 (never 201 with the created Account), because
the read-back query after the commit is malformed SQL. -/
theorem valid_creation_never_returns_created (db : DB) (u e p salt : Str) (ts : Nat)
    (hv : validationErrors u e p = [])
    (hu : db.any (fun a => a.username == u) = false)
    (he : db.any (fun a => a.email == e) = false) :
    (createAccount db u e p salt ts).1 = PostResult.serverError ∧
    statusOf (createAccount db u e p salt ts).1 = 500 := by
  constructor <;> simp [createAccount, hv, sqliteInsert, hu, he, statusOf]

theorem valid_creation_never_returns_created_witness :
    validationErrors "ann".toList "ann@example.com".toList "secret1".toList = [] ∧
    ([] : DB).any (fun a => a.username == "ann".toList) = false ∧
    ([] : DB).any (fun a => a.email == "ann@example.com".toList) = false ∧
    (createAccount [] "ann".toList "ann@example.com".toList "secret1".toList
      "saltsaltsaltsalt".toList 0).1 = PostResult.serverError :=
  ⟨rfl, rfl, rfl,
   (valid_creation_never_returns_created [] "ann".toList "ann@example.com".toList
     "secret1".toList "saltsaltsaltsalt".toList 0 rfl rfl rfl).1⟩

/-- C3 counterexample: for a stored account with `created_at = 5`, the List
Accounts response record does not carry the account's `created_at` value —
the SELECT omits the column, so the marshalled field is `null`. -/
theorem list_accounts_omits_created_at_value :
    (listAccounts [{ id := 1, username := "ann".toList,
                     email := "ann@example.com".toList, password_hash := "h".toList,
                     created_at := 5 }] none).1
      = GetResult.ok 200 [[("id", Json.num 1), ("username", Json.str "ann".toList),
          ("email", Json.str "ann@example.com".toList), ("created_at", Json.null)]] ∧
    (marshalAccountRow { id := 1, username := "ann".toList,
                         email := "ann@example.com".toList, password_hash := "h".toList,
                         created_at := 5 }).lookup "created_at" ≠ some (Json.num 5) := by
  exact ⟨rfl, by decide⟩

/-- C3 amended: List Accounts returns one record per stored account in
storage insertion order; each record carries the account's `id`,
`username` and `email`, a `created_at` key that is always `null` (the
SELECT omits the column), and never a `password_hash` key. -/
theorem list_accounts_row_fields (db : DB) (a : Account) :
    listAccounts db none = (GetResult.ok 200 (db.map marshalAccountRow), db) ∧
    (marshalAccountRow a).lookup "id" = some (Json.num a.id) ∧
    (marshalAccountRow a).lookup "username" = some (Json.str a.username) ∧
    (marshalAccountRow a).lookup "email" = some (Json.str a.email) ∧
    (marshalAccountRow a).lookup "created_at" = some Json.null ∧
    (marshalAccountRow a).lookup "password_hash" = none := by
  refine ⟨rfl, ?_, ?_, ?_, ?_, ?_⟩ <;> rfl

/-- C4: when any validation rule fails, Create Account aborts with 400
carrying the field-to-message mapping, the table is unchanged, and each of
the three fields appears in the mapping exactly when its rule is violated
(so simultaneous violations are all reported together). -/
theorem create_account_validation_aborts (db : DB) (u e p salt : Str) (ts : Nat)
    (h : validationErrors u e p ≠ []) :
    createAccount db u e p salt ts
      = (PostResult.validationError (validationErrors u e p), db) ∧
    statusOf (createAccount db u e p salt ts).1 = 400 ∧
    (("username", usernameMsg) ∈ validationErrors u e p ↔
      u.length < 3 ∨ u.length > 20) ∧
    (("email", emailMsg) ∈ validationErrors u e p ↔ validate_email e = false) ∧
    (("password", passwordMsg) ∈ validationErrors u e p ↔ p.length < 6) := by
  have hc : createAccount db u e p salt ts
      = (PostResult.validationError (validationErrors u e p), db) := by
    simp [createAccount, h]
  exact ⟨hc, by rw [hc]; rfl, username_mem_validationErrors u e p,
    email_mem_validationErrors u e p, password_mem_validationErrors u e p⟩

theorem create_account_validation_aborts_witness :
    validationErrors "ab".toList "bad".toList "123".toList ≠ [] ∧
    createAccount [] "ab".toList "bad".toList "123".toList [] 0
      = (PostResult.validationError
          [("username", usernameMsg), ("email", emailMsg), ("password", passwordMsg)],
         []) :=
  ⟨by decide,
   (create_account_validation_aborts [] "ab".toList "bad".toList "123".toList [] 0
     (by decide)).1⟩

/-- C5 counterexample: with an account "ann" already stored, a second
request with username "ann" but email "bad" (and a valid password) is
answered 400 by validation, not 409 — so "any email" in the claim fails. -/
theorem duplicate_username_invalid_email_not_conflict :
    statusOf (createAccount
      [{ id := 1, username := "ann".toList, email := "ann@example.com".toList,
         password_hash := "h".toList, created_at := 0 }]
      "ann".toList "bad".toList "secret1".toList [] 1).1 = 400 ∧
    statusOf (createAccount
      [{ id := 1, username := "ann".toList, email := "ann@example.com".toList,
         password_hash := "h".toList, created_at := 0 }]
      "ann".toList "bad".toList "secret1".toList [] 1).1 ≠ 409 := by
  exact ⟨rfl, by decide⟩

/-- C5 amended: given a stored account with username `u`, any second
request with username `u` that passes input validation fails with 409, a
message identifying the username conflict, and leaves storage unchanged. -/
theorem duplicate_username_conflict (db : DB) (u e p salt : Str) (ts : Nat)
    (hv : validationErrors u e p = [])
    (hdup : db.any (fun a => a.username == u) = true) :
    createAccount db u e p salt ts
      = (PostResult.conflict (conflictMsgBase ++ usernameConflictMsg), db) ∧
    statusOf (createAccount db u e p salt ts).1 = 409 := by
  have hm : conflictMessage "UNIQUE constraint failed: accounts.username".toList
      = conflictMsgBase ++ usernameConflictMsg := by decide
  have hc : createAccount db u e p salt ts
      = (PostResult.conflict (conflictMsgBase ++ usernameConflictMsg), db) := by
    rw [← hm]
    simp [createAccount, hv, sqliteInsert, hdup]
  exact ⟨hc, by rw [hc]; rfl⟩

theorem duplicate_username_conflict_witness :
    validationErrors "ann".toList "other@example.com".toList "secret1".toList = [] ∧
    ([{ id := 1, username := "ann".toList, email := "ann@example.com".toList,
        password_hash := "h".toList, created_at := 0 }] : DB).any
      (fun a => a.username == "ann".toList) = true ∧
    createAccount
      [{ id := 1, username := "ann".toList, email := "ann@example.com".toList,
         password_hash := "h".toList, created_at := 0 }]
      "ann".toList "other@example.com".toList "secret1".toList [] 1
      = (PostResult.conflict (conflictMsgBase ++ usernameConflictMsg),
         [{ id := 1, username := "ann".toList, email := "ann@example.com".toList,
            password_hash := "h".toList, created_at := 0 }]) :=
  ⟨rfl, rfl,
   (duplicate_username_conflict
     [{ id := 1, username := "ann".toList, email := "ann@example.com".toList,
        password_hash := "h".toList, created_at := 0 }]
     "ann".toList "other@example.com".toList "secret1".toList [] 1 rfl rfl).1⟩

/-- C6 counterexample: the validator accepts "a@b.c\n", a string that is
not of the claimed shape (its last character is a newline, not a
final-label character) — Python's `$` matches before a trailing newline. -/
theorem validate_email_accepts_trailing_newline :
    validate_email "a@b.c\n".toList = true ∧ ¬ EmailShape "a@b.c\n".toList := by
  refine ⟨rfl, fun h => ?_⟩
  exact absurd ((emailBodyMatch_iff "a@b.c\n".toList).2 h) (by decide)

/-- C7: List Accounts never changes the stored table on any path, and on a
storage failure it answers 500 with the fixed generic message — the same
response whatever the underlying exception text, so no storage internals
can leak into it. -/
theorem list_accounts_readonly_and_generic_error (db : DB) (e eAlt : String)
    (f : Option String) :
    (listAccounts db (some e)).1 = GetResult.err 500 dbErrorMsg ∧
    listAccounts db (some e) = listAccounts db (some eAlt) ∧
    (listAccounts db f).2 = db := by
  refine ⟨rfl, rfl, ?_⟩
  cases f <;> rfl

/-- C8: every record persisted by a successful Create Account stores as
`password_hash` the salted hash of the supplied password — never the
plaintext — and that hash is non-empty and differs from the plaintext. -/
theorem create_account_password_hash_invariants (db : DB) (u e p salt : Str) (ts : Nat)
    (hv : validationErrors u e p = [])
    (hu : db.any (fun a => a.username == u) = false)
    (he : db.any (fun a => a.email == e) = false) :
    (createAccount db u e p salt ts).2
      = db ++ [{ id := db.foldl (fun m a => max m a.id) 0 + 1, username := u,
                 email := e, password_hash := generate_password_hash salt p,
                 created_at := ts }] ∧
    generate_password_hash salt p ≠ [] ∧
    generate_password_hash salt p ≠ p := by
  refine ⟨?_, generate_password_hash_ne_nil salt p,
    generate_password_hash_ne_plaintext salt p⟩
  simp [createAccount, hv, sqliteInsert, hu, he]

theorem create_account_password_hash_invariants_witness :
    validationErrors "bob".toList "bob@example.com".toList "hunter2".toList = [] ∧
    ([] : DB).any (fun a => a.username == "bob".toList) = false ∧
    ([] : DB).any (fun a => a.email == "bob@example.com".toList) = false ∧
    generate_password_hash "saltsaltsaltsalt".toList "hunter2".toList ≠ [] ∧
    generate_password_hash "saltsaltsaltsalt".toList "hunter2".toList ≠ "hunter2".toList :=
  ⟨rfl, rfl, rfl,
   (create_account_password_hash_invariants [] "bob".toList "bob@example.com".toList
     "hunter2".toList "saltsaltsaltsalt".toList 0 rfl rfl rfl).2.1,
   (create_account_password_hash_invariants [] "bob".toList "bob@example.com".toList
     "hunter2".toList "saltsaltsaltsalt".toList 0 rfl rfl rfl).2.2⟩

/-- C9: when the integrity-error text names neither "username" nor
"email", the handler still answers 409 but its message is exactly the
generic start, naming no field. -/
theorem integrity_error_unknown_field_generic_409 (e : Str)
    (hu : ¬ ("username".toList <:+: e)) (he : ¬ ("email".toList <:+: e)) :
    conflictMessage e = conflictMsgBase ∧
    statusOf (PostResult.conflict (conflictMessage e)) = 409 := by
  refine ⟨?_, rfl⟩
  simp only [conflictMessage]
  rw [if_neg hu, if_neg he]
  simp

theorem integrity_error_unknown_field_generic_409_witness :
    ¬ ("username".toList <:+: "FOREIGN KEY constraint failed".toList) ∧
    ¬ ("email".toList <:+: "FOREIGN KEY constraint failed".toList) ∧
    conflictMessage "FOREIGN KEY constraint failed".toList = conflictMsgBase :=
  ⟨by decide, by decide,
   (integrity_error_unknown_field_generic_409 "FOREIGN KEY constraint failed".toList
     (by decide) (by decide)).1⟩

/-- C10: the username length bounds are inclusive — lengths 3 and 20
produce no username validation error, lengths 2 and 21 each produce the
username error. -/
theorem username_length_boundaries (u3 u20 u2 u21 e p : Str)
    (h3 : u3.length = 3) (h20 : u20.length = 20)
    (h2 : u2.length = 2) (h21 : u21.length = 21) :
    (("username", usernameMsg) ∉ validationErrors u3 e p) ∧
    (("username", usernameMsg) ∉ validationErrors u20 e p) ∧
    (("username", usernameMsg) ∈ validationErrors u2 e p) ∧
    (("username", usernameMsg) ∈ validationErrors u21 e p) := by
  refine ⟨?_, ?_, ?_, ?_⟩ <;> simp only [username_mem_validationErrors] <;> omega

theorem username_length_boundaries_witness :
    (List.replicate 3 'a').length = 3 ∧ (List.replicate 20 'a').length = 20 ∧
    (List.replicate 2 'a').length = 2 ∧ (List.replicate 21 'a').length = 21 ∧
    (("username", usernameMsg) ∉
      validationErrors (List.replicate 3 'a') "bad".toList "123".toList) ∧
    (("username", usernameMsg) ∈
      validationErrors (List.replicate 2 'a') "bad".toList "123".toList) :=
  ⟨rfl, rfl, rfl, rfl,
   (username_length_boundaries (List.replicate 3 'a') (List.replicate 20 'a')
     (List.replicate 2 'a') (List.replicate 21 'a') "bad".toList "123".toList
     rfl rfl rfl rfl).1,
   (username_length_boundaries (List.replicate 3 'a') (List.replicate 20 'a')
     (List.replicate 2 'a') (List.replicate 21 'a') "bad".toList "123".toList
     rfl rfl rfl rfl).2.2.1⟩
